import Mathlib

/-!
Verification of `src/training/peft_train.py` (prREVIEW repository).

We shallowly embed the two functions original to the repository,
`load_feedback_dataset` and `compute_adoption_rate`, and prove the
specified properties about them.

JSON values are modelled by an inductive `Json`; Python dictionaries are
association lists (first binding wins on lookup, matching `dict.get` on
the unique-key dictionaries produced by `json.load`).  Python truthiness
of JSON values is the function `truthy`.  The fallible loader returns
`Except LoadError`; each `LoadError` constructor corresponds to one
`raise SystemExit(...)` site in the source, and `LoadError.message`
renders the exact message text of that site.  File I/O and JSON parsing
are external to the repository's logic, so the loader consumes a
`FileInput` that records their outcome: the file read raised `OSError`
(`ioError`), `json.load` raised `JSONDecodeError` (`parseError`), or
parsing succeeded with a value (`parsed`).  Floating-point division in
`compute_adoption_rate` is modelled as exact division in `ℚ`.
-/

/-- A JSON value, as produced by Python's `json.load`.  Numbers are
modelled as rationals; objects as ordered association lists. -/
inductive Json : Type where
  | null : Json
  | bool : Bool → Json
  | num : ℚ → Json
  | str : String → Json
  | arr : List Json → Json
  | obj : List (String × Json) → Json

/-- Lookup of a key in an object's field list: `dict.get(k)`, returning
`none` when the key is absent (Python `None`). -/
def lookupField (k : String) : List (String × Json) → Option Json
  | [] => none
  | (k', v) :: fs => if k' = k then some v else lookupField k fs

/-- Python truthiness of a JSON value: `None`, `False`, `0`, `""`, `[]`
and `{}` are falsy, everything else truthy. -/
def truthy : Json → Bool
  | .null => false
  | .bool b => b
  | .num q => decide (q ≠ 0)
  | .str s => decide (s ≠ "")
  | .arr xs => !xs.isEmpty
  | .obj fs => !fs.isEmpty

/-- Truthiness of the result of `dict.get`: an absent key (`None`) is
falsy. -/
def truthyOpt : Option Json → Bool
  | none => false
  | some v => truthy v

/-- `record.get(k)` on a JSON value: field lookup on objects, absent on
anything else. -/
def Json.get : Json → String → Option Json
  | .obj fs, k => lookupField k fs
  | _, _ => none

/-- Whether a JSON value is an array (`isinstance(records, list)`). -/
def Json.isArr : Json → Bool
  | .arr _ => true
  | _ => false

/-- Whether a JSON value is a string. -/
def Json.isStr : Json → Bool
  | .str _ => true
  | _ => false

/-- The outcome of opening, reading and JSON-parsing the dataset file,
the part of `load_feedback_dataset` delegated to the standard library:
`ioError e` when `open`/read raised `OSError` with text `e`,
`parseError e` when `json.load` raised `JSONDecodeError` with text `e`,
`parsed v` when parsing succeeded with value `v`. -/
inductive FileInput : Type where
  | ioError : String → FileInput
  | parseError : String → FileInput
  | parsed : Json → FileInput

/-- The fatal errors of `load_feedback_dataset`, one constructor per
`raise SystemExit` site in the source. -/
inductive LoadError : Type where
  | loadFailed : String → LoadError
  | notAList : LoadError
  | notAnObject : Nat → LoadError
  | missingFields : Nat → LoadError

/-- The exact message text each error site passes to `SystemExit`. -/
def LoadError.message : LoadError → String
  | .loadFailed e => "Failed to load dataset: " ++ e
  | .notAList => "Dataset JSON must be a list of objects"
  | .notAnObject idx => "Record " ++ toString idx ++ " is not an object"
  | .missingFields idx => "Record " ++ toString idx ++ " missing required fields"

/-- Classification of the error sites into the spec's kinds: the
array-shape and per-record errors are dataset-format errors; the merged
`"Failed to load dataset"` error covers both I/O and JSON-decode
failures and is not classified as a format error on its own. -/
def LoadError.isFormatError : LoadError → Bool
  | .loadFailed _ => false
  | .notAList => true
  | .notAnObject _ => true
  | .missingFields _ => true

/-- The per-record validation loop of `load_feedback_dataset`
(lines 32–38): for each element in order, fail if it is not an object,
fail if `record.get("prompt")` or `record.get("completion")` is falsy,
otherwise append it to the output. -/
def validateRecords (idx : Nat) : List Json → Except LoadError (List Json)
  | [] => .ok []
  | r :: rs =>
    match r with
    | Json.obj fs =>
      if truthyOpt (lookupField "prompt" fs) && truthyOpt (lookupField "completion" fs) then
        (validateRecords (idx + 1) rs).map (fun ds => r :: ds)
      else
        .error (.missingFields idx)
    | _ => .error (.notAnObject idx)

/-- `load_feedback_dataset` (lines 21–40).  A failed file read or JSON
parse raises `SystemExit("Failed to load dataset: {e}")`; a non-list
top-level value raises the list error; otherwise the records are
validated in order.  We return the validated record list (the `data`
component of the source's return value; the `Dataset.from_list` wrapper
is an external collaborator). -/
def loadFeedbackDataset : FileInput → Except LoadError (List Json)
  | .ioError e => .error (.loadFailed e)
  | .parseError e => .error (.loadFailed e)
  | .parsed v =>
    match v with
    | Json.arr records => validateRecords 0 records
    | _ => .error .notAList

/-- A record the validation loop accepts: an object whose `prompt` and
`completion` lookups are truthy. -/
def validRecord : Json → Bool
  | .obj fs => truthyOpt (lookupField "prompt" fs) && truthyOpt (lookupField "completion" fs)
  | _ => false

/-- Whether a record counts as adopted: `r.get("adopted")` is truthy. -/
def recordAdopted (r : Json) : Bool :=
  truthyOpt (r.get "adopted")

/-- `compute_adoption_rate` (lines 43–48): `0.0` on the empty list,
otherwise the count of records with truthy `adopted` divided by the
length.  Division is exact in `ℚ`. -/
def computeAdoptionRate (records : List Json) : ℚ :=
  if records.isEmpty then 0
  else (records.countP recordAdopted : ℚ) / (records.length : ℚ)

/-! ## Helper lemmas about the validation loop -/

/-- When every element is a valid record, the loop returns the whole
input list unchanged. -/
theorem validateRecords_ok_of_valid (idx : Nat) (xs : List Json)
    (h : ∀ r ∈ xs, validRecord r = true) :
    validateRecords idx xs = Except.ok xs := by
  induction xs generalizing idx with
  | nil => rfl
  | cons r rs ih =>
    have hr : validRecord r = true := h r (List.mem_cons_self r rs)
    have hrs : ∀ x ∈ rs, validRecord x = true := fun x hx => h x (List.mem_cons_of_mem r hx)
    cases r with
    | obj fs =>
      have hc : (truthyOpt (lookupField "prompt" fs)
          && truthyOpt (lookupField "completion" fs)) = true := hr
      simp [validateRecords, hc, ih (idx + 1) hrs, Except.map]
    | null => simp [validRecord] at hr
    | bool b => simp [validRecord] at hr
    | num q => simp [validRecord] at hr
    | str s => simp [validRecord] at hr
    | arr ys => simp [validRecord] at hr

/-- When some element is invalid, the loop fails, and every failure it
can produce is a dataset-format error. -/
theorem validateRecords_error_of_invalid (idx : Nat) (xs : List Json)
    (h : ∃ r ∈ xs, validRecord r = false) :
    ∃ e, validateRecords idx xs = Except.error e ∧ e.isFormatError = true := by
  induction xs generalizing idx with
  | nil => simp at h
  | cons r rs ih =>
    by_cases hv : validRecord r = true
    · obtain ⟨x, hx, hxf⟩ := h
      rcases List.mem_cons.mp hx with rfl | hx'
      · rw [hv] at hxf; cases hxf
      · obtain ⟨e, he, hf⟩ := ih (idx + 1) ⟨x, hx', hxf⟩
        cases r with
        | obj fs =>
          have hc : (truthyOpt (lookupField "prompt" fs)
              && truthyOpt (lookupField "completion" fs)) = true := hv
          exact ⟨e, by simp [validateRecords, hc, he, Except.map], hf⟩
        | null => simp [validRecord] at hv
        | bool b => simp [validRecord] at hv
        | num q => simp [validRecord] at hv
        | str s => simp [validRecord] at hv
        | arr ys => simp [validRecord] at hv
    · cases r with
      | obj fs =>
        have hc : (truthyOpt (lookupField "prompt" fs)
            && truthyOpt (lookupField "completion" fs)) = false := by
          simpa [validRecord] using hv
        exact ⟨.missingFields idx, by simp [validateRecords, hc], rfl⟩
      | null => exact ⟨.notAnObject idx, rfl, rfl⟩
      | bool b => exact ⟨.notAnObject idx, rfl, rfl⟩
      | num q => exact ⟨.notAnObject idx, rfl, rfl⟩
      | str s => exact ⟨.notAnObject idx, rfl, rfl⟩
      | arr ys => exact ⟨.notAnObject idx, rfl, rfl⟩

/-- The loop only ever succeeds with exactly its input list. -/
theorem validateRecords_ok_eq (idx : Nat) (xs ys : List Json)
    (h : validateRecords idx xs = Except.ok ys) : ys = xs := by
  induction xs generalizing idx ys with
  | nil =>
    simp only [validateRecords] at h
    cases h; rfl
  | cons r rs ih =>
    cases r with
    | obj fs =>
      by_cases hc : (truthyOpt (lookupField "prompt" fs)
          && truthyOpt (lookupField "completion" fs)) = true
      · simp only [validateRecords, hc, if_true] at h
        cases hrec : validateRecords (idx + 1) rs with
        | error e => rw [hrec] at h; simp [Except.map] at h
        | ok ds =>
          rw [hrec] at h
          simp only [Except.map] at h
          cases h
          rw [ih (idx + 1) ds hrec]
      · simp only [validateRecords, hc, if_false] at h
        simp at hc
        simp [hc] at h
    | null => simp [validateRecords] at h
    | bool b => simp [validateRecords] at h
    | num q => simp [validateRecords] at h
    | str s => simp [validateRecords] at h
    | arr ys' => simp [validateRecords] at h

/-- When the records before position `i` are all valid and the record
at position `i` is an object failing the field check, the loop stops
exactly there, naming index `idx + i` in its error. -/
theorem validateRecords_missingFields (idx : Nat) (xs : List Json) (i : Nat)
    (fs : List (String × Json))
    (hprev : (xs.take i).all validRecord = true)
    (hi : xs.get? i = some (Json.obj fs))
    (hbad : (truthyOpt (lookupField "prompt" fs)
        && truthyOpt (lookupField "completion" fs)) = false) :
    validateRecords idx xs = Except.error (LoadError.missingFields (idx + i)) := by
  induction xs generalizing idx i with
  | nil => simp at hi
  | cons r rs ih =>
    cases i with
    | zero =>
      simp only [List.get?_cons_zero, Option.some.injEq] at hi
      subst hi
      simp [validateRecords, hbad]
    | succ i' =>
      simp only [List.take_succ_cons, List.all_cons, Bool.and_eq_true] at hprev
      obtain ⟨hr, hprev'⟩ := hprev
      simp only [List.get?_cons_succ] at hi
      cases r with
      | obj gs =>
        have hc : (truthyOpt (lookupField "prompt" gs)
            && truthyOpt (lookupField "completion" gs)) = true := hr
        have hrec := ih (idx + 1) i' hprev' hi
        simp only [validateRecords, hc, if_true, hrec, Except.map]
        have : idx + 1 + i' = idx + (i' + 1) := by omega
        rw [this]
      | null => simp [validRecord] at hr
      | bool b => simp [validRecord] at hr
      | num q => simp [validRecord] at hr
      | str s => simp [validRecord] at hr
      | arr ys => simp [validRecord] at hr

/-! ## Claim theorems -/

/-- C1: Loading is all-or-nothing.  For every input JSON array, if any
element fails validation then `load_feedback_dataset` fails with an
error and returns no records at all — there is no output list, partial
or otherwise. -/
theorem load_all_or_nothing (xs : List Json)
    (h : ∃ r ∈ xs, validRecord r = false) :
    ∃ e, loadFeedbackDataset (FileInput.parsed (Json.arr xs)) = Except.error e := by
  obtain ⟨e, he, _⟩ := validateRecords_error_of_invalid 0 xs h
  exact ⟨e, he⟩

/-- Witness for C1 at a concrete input: a two-element array whose second
element has no fields. -/
theorem load_all_or_nothing_witness :
    (∃ r ∈ [Json.obj [("prompt", Json.str "a"), ("completion", Json.str "b")],
        Json.obj []], validRecord r = false) ∧
    ∃ e, loadFeedbackDataset (FileInput.parsed (Json.arr
        [Json.obj [("prompt", Json.str "a"), ("completion", Json.str "b")],
         Json.obj []])) = Except.error e :=
  ⟨⟨Json.obj [], by simp, rfl⟩,
   load_all_or_nothing _ ⟨Json.obj [], by simp, rfl⟩⟩

/-- C5: For every valid JSON array whose elements are all well-formed
records, `load_feedback_dataset` succeeds and returns exactly the input
list: same length, same order, duplicates preserved. -/
theorem load_ok_of_all_valid (xs : List Json)
    (h : xs.all validRecord = true) :
    loadFeedbackDataset (FileInput.parsed (Json.arr xs)) = Except.ok xs := by
  have h' : ∀ r ∈ xs, validRecord r = true := List.all_eq_true.mp h
  simpa [loadFeedbackDataset] using validateRecords_ok_of_valid 0 xs h'

/-- Witness for C5 at a concrete input: three well-formed records with a
duplicate. -/
theorem load_ok_of_all_valid_witness :
    ([Json.obj [("prompt", Json.str "p"), ("completion", Json.str "c")],
      Json.obj [("prompt", Json.str "q"), ("completion", Json.str "d"),
        ("adopted", Json.bool true)],
      Json.obj [("prompt", Json.str "p"), ("completion", Json.str "c")]].all
        validRecord = true) ∧
    loadFeedbackDataset (FileInput.parsed (Json.arr
      [Json.obj [("prompt", Json.str "p"), ("completion", Json.str "c")],
       Json.obj [("prompt", Json.str "q"), ("completion", Json.str "d"),
         ("adopted", Json.bool true)],
       Json.obj [("prompt", Json.str "p"), ("completion", Json.str "c")]])) =
      Except.ok
      [Json.obj [("prompt", Json.str "p"), ("completion", Json.str "c")],
       Json.obj [("prompt", Json.str "q"), ("completion", Json.str "d"),
         ("adopted", Json.bool true)],
       Json.obj [("prompt", Json.str "p"), ("completion", Json.str "c")]] :=
  ⟨rfl, load_ok_of_all_valid _ rfl⟩

/-- C7: For every parsed JSON document whose top-level value is not an
array, `load_feedback_dataset` fails with the list-shape error, a
dataset-format error. -/
theorem load_fails_on_nonarray (v : Json) (h : v.isArr = false) :
    loadFeedbackDataset (FileInput.parsed v) = Except.error LoadError.notAList ∧
    LoadError.notAList.isFormatError = true := by
  cases v with
  | arr xs => simp [Json.isArr] at h
  | null => exact ⟨rfl, rfl⟩
  | bool b => exact ⟨rfl, rfl⟩
  | num q => exact ⟨rfl, rfl⟩
  | str s => exact ⟨rfl, rfl⟩
  | obj fs => exact ⟨rfl, rfl⟩

/-- Witness for C7 at a concrete input: a top-level object. -/
theorem load_fails_on_nonarray_witness :
    ((Json.obj [("prompt", Json.str "a")]).isArr = false) ∧
    (loadFeedbackDataset (FileInput.parsed (Json.obj [("prompt", Json.str "a")])) =
        Except.error LoadError.notAList ∧
      LoadError.notAList.isFormatError = true) :=
  ⟨rfl, load_fails_on_nonarray _ rfl⟩

/-- C8: `compute_adoption_rate` applied to the empty sequence returns
`0.0`; being a total function of the embedding, it raises nothing. -/
theorem computeAdoptionRate_empty : computeAdoptionRate [] = 0 := rfl

/-- C10: Whenever `load_feedback_dataset` succeeds, the record at every
position of the output is the very record at that position of the input
array — every original field, including ones other than `prompt`,
`completion` and `adopted`, is preserved unchanged. -/
theorem load_preserves_record_fields (xs ys : List Json) (i : Nat)
    (h : loadFeedbackDataset (FileInput.parsed (Json.arr xs)) = Except.ok ys) :
    ys.get? i = xs.get? i := by
  have hval : validateRecords 0 xs = Except.ok ys := by
    simpa [loadFeedbackDataset] using h
  rw [validateRecords_ok_eq 0 xs ys hval]

/-- Witness for C10 at a concrete input: a record carrying an extra
field survives loading with the extra field intact. -/
theorem load_preserves_record_fields_witness :
    (loadFeedbackDataset (FileInput.parsed (Json.arr
        [Json.obj [("prompt", Json.str "a"), ("completion", Json.str "b"),
          ("extra", Json.num 7)]])) =
      Except.ok [Json.obj [("prompt", Json.str "a"), ("completion", Json.str "b"),
        ("extra", Json.num 7)]]) ∧
    ([Json.obj [("prompt", Json.str "a"), ("completion", Json.str "b"),
        ("extra", Json.num 7)]].get? 0 =
      [Json.obj [("prompt", Json.str "a"), ("completion", Json.str "b"),
        ("extra", Json.num 7)]].get? 0) :=
  ⟨rfl, load_preserves_record_fields _ _ 0 rfl⟩

/-- C2: For every nonempty sequence of records of which exactly `K` have
a truthy `adopted` field, `compute_adoption_rate` returns `K / N` where
`N` is the length.  The embedding is a total pure function, so there are
no side effects and no exceptions; a record whose `adopted` lookup is
absent contributes `false` to the count. -/
theorem computeAdoptionRate_ratio (records : List Json) (N K : Nat)
    (hN : records.length = N) (hK : records.countP recordAdopted = K)
    (hpos : 0 < N) :
    computeAdoptionRate records = (K : ℚ) / (N : ℚ) := by
  have hne : records ≠ [] := by
    intro hnil
    rw [hnil] at hN
    simp at hN
    omega
  rw [computeAdoptionRate, if_neg (by simp [hne]), hK, hN]

/-- Witness for C2 at a concrete input: three records, one adopted,
rate `1/3`. -/
theorem computeAdoptionRate_ratio_witness :
    ([Json.obj [("prompt", Json.str "a"), ("adopted", Json.bool true)],
      Json.obj [("prompt", Json.str "b")],
      Json.obj [("adopted", Json.bool false)]].length = 3) ∧
    ([Json.obj [("prompt", Json.str "a"), ("adopted", Json.bool true)],
      Json.obj [("prompt", Json.str "b")],
      Json.obj [("adopted", Json.bool false)]].countP recordAdopted = 1) ∧
    (0 < 3) ∧
    computeAdoptionRate
      [Json.obj [("prompt", Json.str "a"), ("adopted", Json.bool true)],
       Json.obj [("prompt", Json.str "b")],
       Json.obj [("adopted", Json.bool false)]] = (1 : ℚ) / (3 : ℚ) :=
  ⟨rfl, rfl, by decide, computeAdoptionRate_ratio _ 3 1 rfl rfl (by decide)⟩

/-- C3 counterexample: an unreadable file and an unparsable file produce
the *identical* error value — `SystemExit` with the same
`"Failed to load dataset: ..."` message — so the two failure causes are
not distinguishable as distinct error kinds. -/
theorem load_error_kinds_counterexample :
    loadFeedbackDataset (FileInput.ioError "x") =
      loadFeedbackDataset (FileInput.parseError "x") ∧
    loadFeedbackDataset (FileInput.ioError "x") =
      Except.error (LoadError.loadFailed "x") ∧
    (LoadError.loadFailed "x").message = "Failed to load dataset: x" :=
  ⟨rfl, rfl, rfl⟩

/-- C3 amended: both a failed file read and a failed JSON parse abort
the load with the same single error kind, whose message is
`"Failed to load dataset: "` followed by the underlying exception text;
the causes are distinguishable only through that embedded text, not as
distinct kinds. -/
theorem load_error_kinds_merged (e : String) :
    loadFeedbackDataset (FileInput.ioError e) =
      Except.error (LoadError.loadFailed e) ∧
    loadFeedbackDataset (FileInput.parseError e) =
      Except.error (LoadError.loadFailed e) ∧
    (LoadError.loadFailed e).message = "Failed to load dataset: " ++ e ∧
    (LoadError.loadFailed e).isFormatError = false :=
  ⟨rfl, rfl, rfl, rfl⟩

/-- C4 counterexample: a record whose `prompt` is the boolean `true` —
not a string at all — is accepted, because the source checks only
Python truthiness of `record.get("prompt")`, not its type. -/
theorem load_accepts_nonstring_prompt :
    loadFeedbackDataset (FileInput.parsed (Json.arr
        [Json.obj [("prompt", Json.bool true), ("completion", Json.str "x")]])) =
      Except.ok [Json.obj [("prompt", Json.bool true), ("completion", Json.str "x")]] ∧
    (Json.bool true).isStr = false :=
  ⟨rfl, rfl⟩

/-- C4 amended: a record element is accepted only if its `prompt` and
`completion` lookups are each *truthy* (any non-empty string, `true`,
nonzero number, or non-empty array/object — not null, not missing, not
falsy); an object record failing this check, when the records before it
are valid, aborts the load with a `DatasetFormatError` identifying its
index. -/
theorem load_rejects_nontruthy_fields (xs : List Json) (i : Nat)
    (fs : List (String × Json))
    (hprev : (xs.take i).all validRecord = true)
    (hi : xs.get? i = some (Json.obj fs))
    (hbad : (truthyOpt (lookupField "prompt" fs)
        && truthyOpt (lookupField "completion" fs)) = false) :
    loadFeedbackDataset (FileInput.parsed (Json.arr xs)) =
      Except.error (LoadError.missingFields i) ∧
    (LoadError.missingFields i).isFormatError = true := by
  have h := validateRecords_missingFields 0 xs i fs hprev hi hbad
  rw [Nat.zero_add] at h
  exact ⟨by simpa [loadFeedbackDataset] using h, rfl⟩

/-- Witness for the amended C4 at a concrete input: a record whose
`completion` is `null` is rejected with the error naming index 1. -/
theorem load_rejects_nontruthy_fields_witness :
    (([Json.obj [("prompt", Json.str "a"), ("completion", Json.str "b")],
       Json.obj [("prompt", Json.str "c"), ("completion", Json.null)]].take 1).all
        validRecord = true) ∧
    ([Json.obj [("prompt", Json.str "a"), ("completion", Json.str "b")],
      Json.obj [("prompt", Json.str "c"), ("completion", Json.null)]].get? 1 =
      some (Json.obj [("prompt", Json.str "c"), ("completion", Json.null)])) ∧
    ((truthyOpt (lookupField "prompt"
        [("prompt", Json.str "c"), ("completion", Json.null)])
      && truthyOpt (lookupField "completion"
        [("prompt", Json.str "c"), ("completion", Json.null)])) = false) ∧
    (loadFeedbackDataset (FileInput.parsed (Json.arr
        [Json.obj [("prompt", Json.str "a"), ("completion", Json.str "b")],
         Json.obj [("prompt", Json.str "c"), ("completion", Json.null)]])) =
        Except.error (LoadError.missingFields 1) ∧
      (LoadError.missingFields 1).isFormatError = true) :=
  ⟨rfl, rfl, rfl, load_rejects_nontruthy_fields _ 1 _ rfl rfl rfl⟩

/-- C6: If any position of the input array holds an object record whose
`prompt` is missing or is the empty string, the load fails with a
dataset-format error, regardless of that position. -/
theorem load_fails_on_bad_prompt (xs : List Json) (i : Nat)
    (fs : List (String × Json))
    (hi : xs.get? i = some (Json.obj fs))
    (hbad : lookupField "prompt" fs = none ∨
      lookupField "prompt" fs = some (Json.str "")) :
    ∃ e, loadFeedbackDataset (FileInput.parsed (Json.arr xs)) = Except.error e ∧
      e.isFormatError = true := by
  have hmem : Json.obj fs ∈ xs := List.get?_mem hi
  have hinv : validRecord (Json.obj fs) = false := by
    rcases hbad with hb | hb <;>
      simp [validRecord, hb, truthyOpt, truthy]
  obtain ⟨e, he, hf⟩ := validateRecords_error_of_invalid 0 xs ⟨Json.obj fs, hmem, hinv⟩
  exact ⟨e, by simpa [loadFeedbackDataset] using he, hf⟩

/-- Witness for C6 at the spec's scenario input
`[{"prompt":"","completion":"x"}]`. -/
theorem load_fails_on_bad_prompt_witness :
    ([Json.obj [("prompt", Json.str ""), ("completion", Json.str "x")]].get? 0 =
      some (Json.obj [("prompt", Json.str ""), ("completion", Json.str "x")])) ∧
    (lookupField "prompt" [("prompt", Json.str ""), ("completion", Json.str "x")] = none ∨
      lookupField "prompt" [("prompt", Json.str ""), ("completion", Json.str "x")] =
        some (Json.str "")) ∧
    ∃ e, loadFeedbackDataset (FileInput.parsed (Json.arr
        [Json.obj [("prompt", Json.str ""), ("completion", Json.str "x")]])) =
      Except.error e ∧ e.isFormatError = true :=
  ⟨rfl, Or.inr rfl, load_fails_on_bad_prompt _ 0 _ rfl (Or.inr rfl)⟩

/-- C9: `compute_adoption_rate` returns the same value whether the
record at a given position lacks the `adopted` field entirely or
carries `adopted` explicitly set to `false`. -/
theorem computeAdoptionRate_absent_eq_false (l₁ l₂ : List Json)
    (fs : List (String × Json))
    (h : lookupField "adopted" fs = none) :
    computeAdoptionRate (l₁ ++ Json.obj fs :: l₂) =
      computeAdoptionRate (l₁ ++ Json.obj (("adopted", Json.bool false) :: fs) :: l₂) := by
  have h1 : recordAdopted (Json.obj fs) = false := by
    simp [recordAdopted, Json.get, h, truthyOpt]
  have h2 : recordAdopted (Json.obj (("adopted", Json.bool false) :: fs)) = false := by
    simp [recordAdopted, Json.get, lookupField, truthyOpt, truthy]
  have hne1 : (l₁ ++ Json.obj fs :: l₂).isEmpty = false := by
    cases l₁ <;> rfl
  have hne2 : (l₁ ++ Json.obj (("adopted", Json.bool false) :: fs) :: l₂).isEmpty = false := by
    cases l₁ <;> rfl
  simp [computeAdoptionRate, hne1, hne2, List.countP_append, List.countP_cons, h1, h2]

/-- Witness for C9 at a concrete input: a single record with no
`adopted` field versus the same record with `adopted: false`. -/
theorem computeAdoptionRate_absent_eq_false_witness :
    (lookupField "adopted" [("prompt", Json.str "a")] = none) ∧
    computeAdoptionRate ([] ++ Json.obj [("prompt", Json.str "a")] :: []) =
      computeAdoptionRate
        ([] ++ Json.obj (("adopted", Json.bool false) :: [("prompt", Json.str "a")]) :: []) :=
  ⟨rfl, computeAdoptionRate_absent_eq_false [] [] _ rfl⟩
